import Mathlib

/-!
Verification of the proto-sheet decision-analysis server: a shallow
embedding of the template registry, decision-sheet store, access-control
resolver, credential manager and audit log, with theorems checking the
documented behaviour against the embedded code.

The embedding mirrors the TypeScript source: route handlers become
functions from a database state to a response plus a new state, SQL rows
become structures, and the better-sqlite3 transactions become atomic
state transitions (a whole handler either returns a new state or leaves
the state unchanged).
-/

set_option maxRecDepth 4000

namespace ProtoSheet

/-! ## Data model: templates (tables templates, categories, judgment_parameters) -/

/-- A judgment parameter row (table judgment_parameters). -/
structure Parameter where
  id : String
  name : String
  weightage : Nat
  comment : String
deriving Repr, DecidableEq

/-- A category row together with its parameters (tables categories and
judgment_parameters, as assembled by assembleTemplate). -/
structure Category where
  id : String
  name : String
  parameters : List Parameter
deriving Repr, DecidableEq

/-- A template row together with its assembled category tree. -/
structure Template where
  id : String
  name : String
  ty : String
  description : String
  isDeployed : Bool
  categories : List Category
deriving Repr, DecidableEq

/-- getCategoryWeightage from the calculations module: sum of the
weightages of the parameters of one category. -/
def getCategoryWeightage (category : Category) : Nat :=
  category.parameters.foldl (fun sum param => sum + param.weightage) 0

/-- getTotalWeightage from the calculations module: sum of the category
weightages over all categories. -/
def getTotalWeightage (categories : List Category) : Nat :=
  categories.foldl (fun sum cat => sum + getCategoryWeightage cat) 0

/-- calculateResult from the calculations module: evalScore times
weightage, with out-of-range scores mapped to 0. -/
def calculateResult (evalScore : Int) (weightage : Int) : Int :=
  if evalScore < 0 || evalScore > 10 then 0 else evalScore * weightage

/-- The weightage enumeration enforced by judgmentParameterSchema
(models/schemas.ts): a union of the literals 5, 10, 15, 20, 25 and 30. -/
def weightageAllowed (w : Nat) : Bool :=
  w == 5 || w == 10 || w == 15 || w == 20 || w == 25 || w == 30

/-- A minimal HTTP response: status code plus the error or success
marker the handler puts in the JSON body. -/
structure HttpResponse where
  status : Nat
  body : Option String
deriving Repr, DecidableEq

/-- POST /api/templates/:id/publish (routes/templates.ts): looks the
template up, and on success unconditionally flips its is_deployed flag
(newStatus is the negation of the stored flag); 404 when the template
does not exist. -/
def publishRoute (ts : List Template) (id : String) : HttpResponse × List Template :=
  match ts.find? (fun t => t.id == id) with
  | none => (⟨404, some "Template not found"⟩, ts)
  | some t =>
    let newStatus := !t.isDeployed
    (⟨200, none⟩,
      ts.map (fun x => if x.id == id then { x with isDeployed := newStatus } else x))

/-- handlePublish from the client template editor (TemplateEditPage):
refuses to publish when the total weightage differs from 100, otherwise
marks the template deployed. This check lives only in the browser. -/
def handlePublish (editingTemplate : Template) : Option Template :=
  if getTotalWeightage editingTemplate.categories != 100 then none
  else some { editingTemplate with isDeployed := true }

/-! ## Data model: users, sheets, vendors, evaluations, sharing -/

/-- A row of the users table. -/
structure UserRow where
  id : String
  empCode : String
  email : String
  passwordHash : String
  role : String
deriving Repr, DecidableEq

/-- A row of the da_sheets table. Timestamps are abstract ticks. -/
structure SheetRow where
  id : String
  name : String
  ty : String
  status : String
  templateId : String
  notes : String
  version : Nat
  createdBy : String
  approvedBy : Option String
  approvedAt : Option Nat
  updatedAt : Nat
deriving Repr, DecidableEq

/-- A row of the vendors table. -/
structure VendorRow where
  id : String
  daSheetId : String
  name : String
  overallScore : Int
  notes : String
  sortOrder : Nat
deriving Repr, DecidableEq

/-- A row of the vendor_evaluations table. -/
structure EvaluationRow where
  id : String
  vendorId : String
  categoryId : String
  parameterId : String
  evalScore : Int
  result : Int
  vendorComment : String
deriving Repr, DecidableEq

/-- A row of the shared_access table. -/
structure SharedAccessRow where
  id : String
  daSheetId : String
  userEmail : String
  accessLevel : String
deriving Repr, DecidableEq

/-- The relational store used by the sheet routes. -/
structure Db where
  users : List UserRow
  templates : List Template
  sheets : List SheetRow
  vendors : List VendorRow
  evaluations : List EvaluationRow
  sharedAccess : List SharedAccessRow
deriving Repr, DecidableEq

/-! ## Request bodies (models/schemas.ts) -/

/-- One evaluation inside a submitted vendor score block
(judgmentEvaluationSchema): the client sends parameterId, evalScore,
result and a comment. -/
structure EvaluationInput where
  parameterId : String
  evalScore : Int
  result : Int
  vendorComment : String
deriving Repr, DecidableEq

/-- One category block of submitted scores (vendorScoresSchema value). -/
structure CategoryScoresInput where
  evaluations : List EvaluationInput
  subTotal : Int
deriving Repr, DecidableEq

/-- A submitted vendor (vendorSchema); scores is the record keyed by
category id, kept here as an association list in key order. -/
structure VendorInput where
  id : Option String
  name : String
  scores : List (String × CategoryScoresInput)
  overallScore : Int
  notes : String
deriving Repr, DecidableEq

/-- Body of PUT /api/sheets/:id (updateDASheetSchema): every field
optional; a supplied vendor list replaces all vendors wholesale. -/
structure UpdateInput where
  name : Option String
  status : Option String
  notes : Option String
  vendors : Option (List VendorInput)
deriving Repr, DecidableEq

/-- Body of POST /api/sheets (createDASheetSchema). -/
structure CreateInput where
  name : String
  ty : String
  templateId : String
  vendors : List VendorInput
  notes : String
deriving Repr, DecidableEq

/-! ## Access control (hasAccess in the sheets router) -/

/-- hasAccess: owner always passes; otherwise the callers email is
looked up and matched against shared_access; a missing sheet or missing
user yields false; a view requirement is satisfied by any row, an edit
requirement only by an edit row. requiredEdit models the optional
requiredLevel argument being the string edit. -/
def hasAccess (db : Db) (sheetId : String) (userId : String) (requiredEdit : Bool) : Bool :=
  match db.sheets.find? (fun s => s.id == sheetId) with
  | none => false
  | some sheet =>
    if sheet.createdBy == userId then true
    else
      match db.users.find? (fun u => u.id == userId) with
      | none => false
      | some user =>
        match db.sharedAccess.find?
            (fun a => a.daSheetId == sheetId && a.userEmail == user.email) with
        | none => false
        | some access =>
          if requiredEdit && access.accessLevel != "edit" then false else true

/-- The WHERE clause of the non-admin sheet listing (GET /api/sheets):
a sheet is selected when the caller created it or some shared_access row
of the sheet joins to a users row with the callers id. -/
def visibleToNonAdmin (db : Db) (s : SheetRow) (userId : String) : Bool :=
  s.createdBy == userId ||
    db.sharedAccess.any (fun sa =>
      sa.daSheetId == s.id &&
        db.users.any (fun u => u.email == sa.userEmail && u.id == userId))

/-- The rows a non-admin caller receives from the sheet listing,
before pagination. -/
def listSheetsNonAdmin (db : Db) (userId : String) : List SheetRow :=
  db.sheets.filter (fun s => visibleToNonAdmin db s userId)

/-! ## Sheet routes (sheets router)

Fresh identifiers: every uuidv4() call is modelled by an explicit
supply. gen numbers the vendor-level ids of one request, egen numbers
the evaluation-row ids by vendor, category block and position. -/

/-- GET /api/sheets/:id: the access check runs first (admins skip it),
the existence check second. -/
def getSheetRoute (db : Db) (userId : String) (role : String) (sheetId : String) :
    HttpResponse :=
  if !hasAccess db sheetId userId false && role != "admin" then
    ⟨403, some "Access denied"⟩
  else
    match db.sheets.find? (fun s => s.id == sheetId) with
    | none => ⟨404, some "DA Sheet not found"⟩
    | some _ => ⟨200, none⟩

/-- The vendor row inserted for the submitted vendor at position i:
a caller-supplied id is kept, a fresh one is drawn otherwise, and
name, overallScore and notes are stored as submitted. -/
def vendorRowOfInput (sheetId : String) (vid : String) (i : Nat) (v : VendorInput) :
    VendorRow :=
  { id := vid, daSheetId := sheetId, name := v.name,
    overallScore := v.overallScore, notes := v.notes, sortOrder := i }

/-- The evaluation rows inserted for one category block: each submitted
evaluation becomes a row storing parameterId, evalScore, result and
comment exactly as submitted. -/
def evalRowsOfCat (egen2 : Nat → String) (vid : String) (cid : String) :
    Nat → List EvaluationInput → List EvaluationRow
  | _, [] => []
  | j, ev :: rest =>
    { id := egen2 j, vendorId := vid, categoryId := cid,
      parameterId := ev.parameterId, evalScore := ev.evalScore,
      result := ev.result, vendorComment := ev.vendorComment } ::
      evalRowsOfCat egen2 vid cid (j + 1) rest

/-- The evaluation rows inserted for one vendor, walking the score
record in key order (Object.entries). -/
def evalRowsOfScores (egen1 : Nat → Nat → String) (vid : String) :
    Nat → List (String × CategoryScoresInput) → List EvaluationRow
  | _, [] => []
  | c, (cid, cd) :: rest =>
    evalRowsOfCat (egen1 c) vid cid 0 cd.evaluations ++
      evalRowsOfScores egen1 vid (c + 1) rest

/-- The vendor and evaluation rows inserted for a submitted vendor
list, by the identical loop of the create and update handlers. -/
def insertedRows (gen : Nat → String) (egen : Nat → Nat → Nat → String)
    (sheetId : String) :
    Nat → List VendorInput → List VendorRow × List EvaluationRow
  | _, [] => ([], [])
  | i, v :: rest =>
    let vid := (v.id).getD (gen i)
    let tail := insertedRows gen egen sheetId (i + 1) rest
    (vendorRowOfInput sheetId vid i v :: tail.1,
      evalRowsOfScores (egen i) vid 0 v.scores ++ tail.2)

/-- PUT /api/sheets/:id: edit-level access check before existence
check; then, in one transaction, a partial update of name, status and
notes, an unconditional version bump and timestamp refresh, and — when
a vendor list is supplied — wholesale replacement of the vendors and
(by cascade) their evaluations with rows built verbatim from the
request body. No recomputation of result or overallScore happens. -/
def updateSheetRoute (db : Db) (gen : Nat → String) (egen : Nat → Nat → Nat → String)
    (now : Nat) (userId : String) (role : String) (sheetId : String)
    (input : UpdateInput) : HttpResponse × Db :=
  if !hasAccess db sheetId userId true && role != "admin" then
    (⟨403, some "Access denied"⟩, db)
  else
    match db.sheets.find? (fun s => s.id == sheetId) with
    | none => (⟨404, some "DA Sheet not found"⟩, db)
    | some _ =>
      let sheets2 := db.sheets.map (fun s =>
        if s.id == sheetId then
          { s with
            name := (input.name).getD s.name,
            status := (input.status).getD s.status,
            notes := (input.notes).getD s.notes,
            version := s.version + 1,
            updatedAt := now }
        else s)
      match input.vendors with
      | none => (⟨200, none⟩, { db with sheets := sheets2 })
      | some vs =>
        let doomed := db.vendors.filter (fun v => v.daSheetId == sheetId)
        let rows := insertedRows gen egen sheetId 0 vs
        (⟨200, none⟩,
          { db with
            sheets := sheets2,
            vendors :=
              db.vendors.filter (fun v => !(v.daSheetId == sheetId)) ++ rows.1,
            evaluations :=
              db.evaluations.filter
                (fun e => !(doomed.any (fun v => v.id == e.vendorId))) ++ rows.2 })

/-- POST /api/sheets: verifies only that the referenced template
exists (no deployed-flag check), then inserts the sheet row — status
and version come from the column defaults Draft and 1 — and the
submitted vendors and evaluations through the same loop as update. -/
def createSheetRoute (db : Db) (sheetId : String) (gen : Nat → String)
    (egen : Nat → Nat → Nat → String) (now : Nat) (userId : String)
    (input : CreateInput) : HttpResponse × Db :=
  match db.templates.find? (fun t => t.id == input.templateId) with
  | none => (⟨400, some "Template not found"⟩, db)
  | some _ =>
    let newSheet : SheetRow :=
      { id := sheetId, name := input.name, ty := input.ty, status := "Draft",
        templateId := input.templateId, notes := input.notes, version := 1,
        createdBy := userId, approvedBy := none, approvedAt := none,
        updatedAt := now }
    let rows := insertedRows gen egen sheetId 0 input.vendors
    (⟨201, none⟩,
      { db with
        sheets := db.sheets ++ [newSheet],
        vendors := db.vendors ++ rows.1,
        evaluations := db.evaluations ++ rows.2 })

/-- DELETE /api/sheets/:id: existence check first, then the
owner-or-admin check; deletion cascades to vendors, evaluations and
shared_access rows. -/
def deleteSheetRoute (db : Db) (userId : String) (role : String) (sheetId : String) :
    HttpResponse × Db :=
  match db.sheets.find? (fun s => s.id == sheetId) with
  | none => (⟨404, some "DA Sheet not found"⟩, db)
  | some existing =>
    if existing.createdBy != userId && role != "admin" then
      (⟨403, some "Only the owner or admin can delete this sheet"⟩, db)
    else
      let doomed := db.vendors.filter (fun v => v.daSheetId == sheetId)
      (⟨200, none⟩,
        { db with
          sheets := db.sheets.filter (fun s => !(s.id == sheetId)),
          vendors := db.vendors.filter (fun v => !(v.daSheetId == sheetId)),
          evaluations :=
            db.evaluations.filter
              (fun e => !(doomed.any (fun v => v.id == e.vendorId))),
          sharedAccess :=
            db.sharedAccess.filter (fun a => !(a.daSheetId == sheetId)) })

/-- The copies of the evaluation rows of one vendor, re-keyed to the
fresh vendor id; all scored values are carried over unchanged. -/
def copyEvalsAux (egen2 : Nat → String) (nid : String) :
    Nat → List EvaluationRow → List EvaluationRow
  | _, [] => []
  | j, e :: rest =>
    { e with id := egen2 j, vendorId := nid } :: copyEvalsAux egen2 nid (j + 1) rest

/-- The copies of the vendors of a sheet (position i takes fresh id
gen (i+1); gen 0 is the new sheet id) together with the copies of
their evaluation rows. -/
def dupRows (evals : List EvaluationRow) (gen : Nat → String)
    (egen : Nat → Nat → String) (newSheetId : String) :
    Nat → List VendorRow → List VendorRow × List EvaluationRow
  | _, [] => ([], [])
  | i, v :: rest =>
    let nid := gen (i + 1)
    let tail := dupRows evals gen egen newSheetId (i + 1) rest
    ({ v with id := nid, daSheetId := newSheetId } :: tail.1,
      copyEvalsAux (egen i) nid 0 (evals.filter (fun e => e.vendorId == v.id)) ++
        tail.2)

/-- POST /api/sheets/:id/duplicate: view-level access check before
existence check; deep-copies the sheet under fresh identifiers with
name suffixed, status Draft, version 1, the caller as creator, and the
approval columns left at their NULL defaults. -/
def duplicateSheetRoute (db : Db) (gen : Nat → String) (egen : Nat → Nat → String)
    (now : Nat) (userId : String) (role : String) (sheetId : String) :
    HttpResponse × Db :=
  if !hasAccess db sheetId userId false && role != "admin" then
    (⟨403, some "Access denied"⟩, db)
  else
    match db.sheets.find? (fun s => s.id == sheetId) with
    | none => (⟨404, some "DA Sheet not found"⟩, db)
    | some original =>
      let newSheet : SheetRow :=
        { id := gen 0, name := original.name ++ " (Copy)", ty := original.ty,
          status := "Draft", templateId := original.templateId,
          notes := original.notes, version := 1, createdBy := userId,
          approvedBy := none, approvedAt := none, updatedAt := now }
      let olds := db.vendors.filter (fun v => v.daSheetId == sheetId)
      let rows := dupRows db.evaluations gen egen (gen 0) 0 olds
      (⟨201, none⟩,
        { db with
          sheets := db.sheets ++ [newSheet],
          vendors := db.vendors ++ rows.1,
          evaluations := db.evaluations ++ rows.2 })

/-- POST /api/sheets/:id/share: existence check, then owner-or-admin
check, then an upsert keyed on sheet and email: an existing row gets
its access level updated, otherwise a fresh row is inserted. -/
def shareSheetRoute (db : Db) (gen : Nat → String) (userId : String) (role : String)
    (sheetId : String) (email : String) (accessLevel : String) :
    HttpResponse × Db :=
  match db.sheets.find? (fun s => s.id == sheetId) with
  | none => (⟨404, some "DA Sheet not found"⟩, db)
  | some sheet =>
    if sheet.createdBy != userId && role != "admin" then
      (⟨403, some "Only the owner or admin can share this sheet"⟩, db)
    else
      let newAccess :=
        if db.sharedAccess.any
            (fun a => a.daSheetId == sheetId && a.userEmail == email) then
          db.sharedAccess.map (fun a =>
            if a.daSheetId == sheetId && a.userEmail == email then
              { a with accessLevel := accessLevel }
            else a)
        else
          db.sharedAccess ++
            [{ id := gen 0, daSheetId := sheetId, userEmail := email,
               accessLevel := accessLevel }]
      (⟨200, none⟩, { db with sharedAccess := newAccess })

/-- DELETE /api/sheets/:id/share/:email: existence check, then
owner-or-admin check, then deletion of the matching shared_access row. -/
def unshareSheetRoute (db : Db) (userId : String) (role : String)
    (sheetId : String) (email : String) : HttpResponse × Db :=
  match db.sheets.find? (fun s => s.id == sheetId) with
  | none => (⟨404, some "DA Sheet not found"⟩, db)
  | some sheet =>
    if sheet.createdBy != userId && role != "admin" then
      (⟨403, some "Only the owner or admin can manage sharing"⟩, db)
    else
      (⟨200, none⟩,
        { db with
          sharedAccess :=
            db.sharedAccess.filter
              (fun a => !(a.daSheetId == sheetId && a.userEmail == email)) })

/-! ## Credential and session manager (services/auth.ts, routes/auth.ts) -/

/-- A row of the refresh_tokens table: only a hash of the token is
stored, with expiry and an optional revocation mark. -/
structure TokenRecord where
  id : String
  userId : String
  tokenHash : String
  revoked : Bool
  expiresAt : Nat
deriving Repr, DecidableEq

/-- The cryptographic and generation primitives the auth service calls
out to: jwt.verify (returning the payload user id), bcrypt.compare,
bcrypt.hash, jwt.sign for both token kinds, and the uuid supply. -/
structure AuthConfig where
  verify : String → Option String
  hashMatch : String → String → Bool
  hashFn : String → String
  generateAccess : String → String
  generateRefresh : String → String
  freshId : Nat → String

/-- The state the auth service reads and writes. -/
structure AuthState where
  users : List UserRow
  tokens : List TokenRecord
  now : Nat
deriving Repr, DecidableEq

/-- The token pair returned to the caller. -/
structure AuthTokens where
  accessToken : String
  refreshToken : String
deriving Repr, DecidableEq

/-- The refresh-token lifetime in milliseconds (parseDuration of the
default 7d). -/
def refreshLifetimeMs : Nat := 7 * 24 * 60 * 60 * 1000

/-- loginUser: looks the user up by employee code and throws the same
Invalid credentials error both when no row exists and when the hash
comparison fails; on success returns the user (token issuance and the
LOGIN audit insert follow in the same transaction). -/
def loginUser (users : List UserRow) (check : String → String → Bool)
    (empCode : String) (password : String) : Except String UserRow :=
  match users.find? (fun u => u.empCode == empCode) with
  | none => .error "Invalid credentials"
  | some user =>
    if check password user.passwordHash then .ok user
    else .error "Invalid credentials"

/-- POST /api/auth/login: maps a thrown Invalid credentials onto a 401
with that exact message, success onto 200, anything else onto 500. -/
def loginRoute (users : List UserRow) (check : String → String → Bool)
    (empCode : String) (password : String) : HttpResponse :=
  match loginUser users check empCode password with
  | .ok _ => ⟨200, none⟩
  | .error msg =>
    if msg == "Invalid credentials" then ⟨401, some msg⟩
    else ⟨500, some "Internal server error"⟩

/-- refreshAccessToken: verifies the JWT, scans the callers unrevoked
unexpired token records for a bcrypt match, and inside one transaction
revokes the matched record and inserts the record of a freshly issued
pair; every failure leaves the state untouched. -/
def refreshAccessToken (cfg : AuthConfig) (st : AuthState) (raw : String) :
    Except String (AuthState × AuthTokens) :=
  match cfg.verify raw with
  | none => .error "Invalid refresh token"
  | some uid =>
    let stored := st.tokens.filter
      (fun t => t.userId == uid && !t.revoked && st.now < t.expiresAt)
    match stored.find? (fun t => cfg.hashMatch raw t.tokenHash) with
    | none => .error "Refresh token not found or revoked"
    | some matched =>
      let afterRevoke := st.tokens.map (fun t =>
        if t.id == matched.id then { t with revoked := true } else t)
      match st.users.find? (fun u => u.id == uid) with
      | none => .error "User not found"
      | some user =>
        let tokens : AuthTokens :=
          ⟨cfg.generateAccess user.id, cfg.generateRefresh user.id⟩
        let newRecord : TokenRecord :=
          { id := cfg.freshId 0, userId := user.id,
            tokenHash := cfg.hashFn tokens.refreshToken, revoked := false,
            expiresAt := st.now + refreshLifetimeMs }
        .ok ({ st with tokens := afterRevoke ++ [newRecord] }, tokens)

/-! ## Audit log (services/audit.ts) -/

/-- A row of the audit_log table. -/
structure AuditEntry where
  id : String
  userId : Option String
  action : String
  entityType : String
  entityId : String
  details : Option String
deriving Repr, DecidableEq

/-- logAudit: attempts the append-only insert; a write failure is
caught inside the function and only logged, so the caller always gets
a normal return — with the entry appended on success and the log
unchanged on failure. writeOk models whether executeWithCommit throws. -/
def logAudit (writeOk : Bool) (log : List AuditEntry) (entry : AuditEntry) :
    Except String (List AuditEntry) :=
  let attempt : Except String (List AuditEntry) :=
    if writeOk then .ok (log ++ [entry]) else .error "audit write failed"
  match attempt with
  | .ok newLog => .ok newLog
  | .error _ => .ok log

/-- The call pattern of every mutating route: the primary operation
commits its transaction first, then logAudit runs, then the response is
produced from the primary result. -/
def runWithAudit {σ ρ : Type} (op : σ → Except String (σ × ρ)) (writeOk : Bool)
    (entry : AuditEntry) (st : σ) (log : List AuditEntry) :
    Except String ((σ × List AuditEntry) × ρ) :=
  match op st with
  | .error e => .error e
  | .ok (st2, r) =>
    match logAudit writeOk log entry with
    | .ok log2 => .ok ((st2, log2), r)
    | .error e => .error e

/-! ## Derived-value vocabulary used to state the claims -/

/-- A score clamped to the range 0 to 10. -/
def clampScore (s : Int) : Int := min 10 (max 0 s)

/-- The weightage of a parameter id in the current state of a
template, 0 when the parameter does not exist (the fallback
recalculateVendor uses). -/
def weightageOf (t : Template) (parameterId : String) : Nat :=
  match (t.categories.flatMap (fun c => c.parameters)).find?
      (fun p => p.id == parameterId) with
  | none => 0
  | some p => p.weightage

/-- The evaluation rows currently stored for a sheet: the rows whose
vendor row belongs to the sheet. -/
def sheetEvalRows (db : Db) (sheetId : String) : List EvaluationRow :=
  db.evaluations.filter (fun e =>
    (db.vendors.filter (fun v => v.daSheetId == sheetId)).any
      (fun v => v.id == e.vendorId))

/-- The value part of a stored evaluation row: parameter reference,
score, result and comment, without the generated identifiers. -/
def evalRowVal (e : EvaluationRow) : String × Int × Int × String :=
  (e.parameterId, e.evalScore, e.result, e.vendorComment)

/-- The value part of a submitted evaluation. -/
def evalInputVal (ev : EvaluationInput) : String × Int × Int × String :=
  (ev.parameterId, ev.evalScore, ev.result, ev.vendorComment)

/-- All evaluations of a submitted score record, in traversal order. -/
def flattenScores (scores : List (String × CategoryScoresInput)) :
    List EvaluationInput :=
  scores.flatMap (fun p => p.2.evaluations)

/-- All evaluations of a submitted vendor list, in traversal order. -/
def flattenVendors (vs : List VendorInput) : List EvaluationInput :=
  vs.flatMap (fun v => flattenScores v.scores)

/-- The value part of a vendor row, without identifiers. -/
def vendorVal (v : VendorRow) : String × Int × String × Nat :=
  (v.name, v.overallScore, v.notes, v.sortOrder)

/-- The value part of an evaluation row as compared across a
duplication: category and parameter references, score, result and
comment. -/
def dupEvalVal (e : EvaluationRow) : String × String × Int × Int × String :=
  (e.categoryId, e.parameterId, e.evalScore, e.result, e.vendorComment)

/-- The templates the client sheet editor offers for selection when
creating a sheet: only the deployed ones. -/
def publishedTemplates (ts : List Template) : List Template :=
  ts.filter (fun t => t.isDeployed)

/-! ## The spec-claimed properties that the code refutes, stated as
written so they can be disproved at a concrete input -/

/-- The claimed publish behaviour: publishing a template whose total
weightage differs from 100 answers 409 and leaves the template
unpublished. -/
def publishRejectsBadTotalClaimed : Prop :=
  ∀ (ts : List Template) (id : String) (t : Template),
    ts.find? (fun x => x.id == id) = some t →
    t.isDeployed = false →
    getTotalWeightage t.categories ≠ 100 →
    (publishRoute ts id).1.status = 409 ∧
      ∀ t2 ∈ (publishRoute ts id).2, t2.id = id → t2.isDeployed = false

/-- The claimed create behaviour: a sheet-create request naming an
existing but undeployed template does not succeed. -/
def createRequiresDeployedClaimed : Prop :=
  ∀ (db : Db) (sheetId : String) (gen : Nat → String)
    (egen : Nat → Nat → Nat → String) (now : Nat) (userId : String)
    (input : CreateInput) (t : Template),
    db.templates.find? (fun x => x.id == input.templateId) = some t →
    t.isDeployed = false →
    (createSheetRoute db sheetId gen egen now userId input).1.status ≠ 201

/-- The claimed update behaviour: after any successful update that
supplies a vendor list, every stored evaluation of the sheet carries
result equal to the clamped score times the weightage looked up in the
current template, whatever result the caller submitted. -/
def updateRecomputesResultClaimed : Prop :=
  ∀ (db : Db) (gen : Nat → String) (egen : Nat → Nat → Nat → String)
    (now : Nat) (userId role sheetId : String) (input : UpdateInput)
    (vs : List VendorInput) (s : SheetRow) (t : Template),
    input.vendors = some vs →
    db.sheets.find? (fun x => x.id == sheetId) = some s →
    db.templates.find? (fun x => x.id == s.templateId) = some t →
    ((updateSheetRoute db gen egen now userId role sheetId input).1).status = 200 →
    ∀ e ∈ sheetEvalRows
        ((updateSheetRoute db gen egen now userId role sheetId input).2) sheetId,
      e.result = clampScore e.evalScore * Int.ofNat (weightageOf t e.parameterId)

/-! ## Concrete fixtures for counterexamples and witnesses -/

/-- A draft template whose parameter weightages total 95. -/
def tmpl95 : Template :=
  { id := "t1", name := "T", ty := "License", description := "",
    isDeployed := false,
    categories :=
      [⟨"c1", "Quality",
        [⟨"p1", "P1", 30, ""⟩, ⟨"p2", "P2", 30, ""⟩,
         ⟨"p3", "P3", 30, ""⟩, ⟨"p4", "P4", 5, ""⟩]⟩] }

/-- A deployed template with a single parameter of weightage 10. -/
def tmplW10 : Template :=
  { id := "t1", name := "T", ty := "License", description := "",
    isDeployed := true,
    categories := [⟨"c1", "Quality", [⟨"p1", "P1", 10, ""⟩]⟩] }

/-- The owner account used by the sheet fixtures. -/
def owner1 : UserRow :=
  { id := "u1", empCode := "E1", email := "a@x", passwordHash := "ph",
    role := "user" }

/-- A draft sheet owned by owner1 against tmplW10. -/
def sheet1 : SheetRow :=
  { id := "s1", name := "S", ty := "License", status := "Draft",
    templateId := "t1", notes := "", version := 1, createdBy := "u1",
    approvedBy := none, approvedAt := none, updatedAt := 0 }

/-- Store holding owner1, tmplW10 and sheet1 with no vendors yet. -/
def dbBase : Db :=
  { users := [owner1], templates := [tmplW10], sheets := [sheet1],
    vendors := [], evaluations := [], sharedAccess := [] }

/-- An update supplying one vendor whose single evaluation claims
score 2 but result 999. -/
def inputBad : UpdateInput :=
  { name := none, status := none, notes := none,
    vendors := some
      [{ id := none, name := "Acme",
         scores := [("c1", ⟨[⟨"p1", 2, 999, ""⟩], 999⟩)],
         overallScore := 999, notes := "" }] }

/-- Store holding owner1 and the draft template tmpl95 only. -/
def dbDraftTmpl : Db :=
  { users := [owner1], templates := [tmpl95], sheets := [], vendors := [],
    evaluations := [], sharedAccess := [] }

/-- A create request naming the draft template. -/
def inputCreate : CreateInput :=
  { name := "S", ty := "License", templateId := "t1", vendors := [],
    notes := "" }

/-- An update patch touching nothing. -/
def inputEmpty : UpdateInput :=
  { name := none, status := none, notes := none, vendors := none }

/-- Owner of the sharing fixtures. -/
def ownerUser : UserRow :=
  { id := "u9", empCode := "E9", email := "o@x", passwordHash := "ph",
    role := "user" }

/-- A caller who neither owns nor is shared on the fixture sheet. -/
def stranger : UserRow :=
  { id := "u2", empCode := "E2", email := "b@x", passwordHash := "ph",
    role := "user" }

/-- A sheet owned by ownerUser. -/
def sheet9 : SheetRow :=
  { id := "s9", name := "S9", ty := "License", status := "Draft",
    templateId := "t1", notes := "", version := 1, createdBy := "u9",
    approvedBy := none, approvedAt := none, updatedAt := 0 }

/-- Store where sheet9 is shared with a third email only. -/
def dbDeny : Db :=
  { users := [ownerUser, stranger], templates := [], sheets := [sheet9],
    vendors := [], evaluations := [],
    sharedAccess := [⟨"sa1", "s9", "c@x", "edit"⟩] }

/-- Store where sheet9 is shared with the strangers email at view
level. -/
def dbGrant : Db :=
  { users := [ownerUser, stranger], templates := [], sheets := [sheet9],
    vendors := [], evaluations := [],
    sharedAccess := [⟨"sa1", "s9", "b@x", "view"⟩] }

/-- An approved, multiply-updated sheet used by the duplication
fixture. -/
def sheetApproved : SheetRow :=
  { id := "s1", name := "S", ty := "License", status := "Approved",
    templateId := "t1", notes := "n", version := 5, createdBy := "u1",
    approvedBy := some "u9", approvedAt := some 3, updatedAt := 4 }

/-- A vendor row of sheetApproved. -/
def vendorA : VendorRow :=
  { id := "v1", daSheetId := "s1", name := "Acme", overallScore := 80,
    notes := "", sortOrder := 0 }

/-- The evaluation row of vendorA. -/
def evalA : EvaluationRow :=
  { id := "e1", vendorId := "v1", categoryId := "c1", parameterId := "p1",
    evalScore := 8, result := 80, vendorComment := "good" }

/-- Store holding the approved sheet with its vendor and evaluation. -/
def dbDup : Db :=
  { users := [owner1], templates := [tmplW10], sheets := [sheetApproved],
    vendors := [vendorA], evaluations := [evalA], sharedAccess := [] }

/-- Concrete auth primitives for the refresh fixture. -/
def cfgW : AuthConfig :=
  { verify := fun s => if s == "raw1" then some "u1" else none,
    hashMatch := fun r h => r == "raw1" && h == "h1",
    hashFn := fun v => String.append "hash-" v,
    generateAccess := fun _ => "acc1",
    generateRefresh := fun u => String.append "new-" u,
    freshId := fun n => String.append "tid" (toString n) }

/-- Auth state with one live refresh-token record for user u1. -/
def stW : AuthState :=
  { users := [owner1], tokens := [⟨"t0", "u1", "h1", false, 10⟩], now := 5 }

/-- The state after the first successful redemption: the matched
record revoked and the replacement record inserted. -/
def stW2 : AuthState :=
  { users := [owner1],
    tokens := [⟨"t0", "u1", "h1", true, 10⟩,
               ⟨"tid0", "u1", "hash-new-u1", false, 5 + refreshLifetimeMs⟩],
    now := 5 }

/-- An audit entry used by the audit fixture. -/
def auditEntry1 : AuditEntry :=
  { id := "a1", userId := some "u1", action := "UPDATE",
    entityType := "da_sheet", entityId := "s1", details := none }

/-! ## Helper lemmas -/

/-- Prepending to a flatMap unfolds to an append. -/
theorem list_flatMap_cons {α β : Type} (f : α → List β) (a : α) (l : List α) :
    (a :: l).flatMap f = f a ++ l.flatMap f := rfl

/-- Updating the rows matching a predicate, with a row transformer
that preserves the predicate, moves find? through the map. -/
theorem find?_map_update {α : Type} (p : α → Bool) (f : α → α)
    (hpf : ∀ x, p (f x) = p x) :
    ∀ (l : List α) (a : α), l.find? p = some a →
      (l.map (fun x => if p x then f x else x)).find? p = some (f a) := by
  intro l
  induction l with
  | nil => intro a h; simp at h
  | cons b t ih =>
    intro a h
    cases hb : p b with
    | true =>
      rw [List.find?_cons_of_pos _ hb] at h
      cases h
      simp only [List.map_cons, hb, if_true]
      exact List.find?_cons_of_pos _ (by rw [hpf]; exact hb)
    | false =>
      rw [List.find?_cons_of_neg _ (by simp [hb])] at h
      simp only [List.map_cons, hb, if_false]
      rw [List.find?_cons_of_neg _ (by simp [hb])]
      exact ih a h

/-- Two members of a list of length at most one are equal. -/
theorem mem_eq_of_length_le_one {α : Type} :
    ∀ {l : List α}, l.length ≤ 1 → ∀ a ∈ l, ∀ b ∈ l, a = b := by
  intro l
  match l with
  | [] => intro _ a ha; simp at ha
  | [x] =>
    intro _ a ha b hb
    simp at ha hb
    rw [ha, hb]
  | x :: y :: t =>
    intro h
    simp at h

/-- The inserted evaluation rows of one category block carry the
submitted values verbatim. -/
theorem evalRowsOfCat_map_val (egen2 : Nat → String) (vid cid : String) :
    ∀ (j : Nat) (evs : List EvaluationInput),
      (evalRowsOfCat egen2 vid cid j evs).map evalRowVal =
        evs.map evalInputVal := by
  intro j evs
  induction evs generalizing j with
  | nil => rfl
  | cons e rest ih => simp [evalRowsOfCat, evalRowVal, evalInputVal, ih]

/-- The inserted evaluation rows of one vendor carry the submitted
values verbatim, in traversal order. -/
theorem evalRowsOfScores_map_val (egen1 : Nat → Nat → String) (vid : String) :
    ∀ (c : Nat) (scores : List (String × CategoryScoresInput)),
      (evalRowsOfScores egen1 vid c scores).map evalRowVal =
        (flattenScores scores).map evalInputVal := by
  intro c scores
  induction scores generalizing c with
  | nil => rfl
  | cons p rest ih =>
    have hsplit : flattenScores (p :: rest) = p.2.evaluations ++ flattenScores rest := rfl
    show (evalRowsOfCat (egen1 c) vid p.1 0 p.2.evaluations ++
        evalRowsOfScores egen1 vid (c + 1) rest).map evalRowVal = _
    rw [hsplit, List.map_append, List.map_append, evalRowsOfCat_map_val,
      ih (c + 1)]

/-- The evaluation rows inserted for a submitted vendor list carry the
submitted values verbatim. -/
theorem insertedRows_map_evalVal (gen : Nat → String)
    (egen : Nat → Nat → Nat → String) (sid : String) :
    ∀ (i : Nat) (vs : List VendorInput),
      ((insertedRows gen egen sid i vs).2).map evalRowVal =
        (flattenVendors vs).map evalInputVal := by
  intro i vs
  induction vs generalizing i with
  | nil => rfl
  | cons v rest ih =>
    have hsplit : flattenVendors (v :: rest) =
        flattenScores v.scores ++ flattenVendors rest := rfl
    show (evalRowsOfScores (egen i) ((v.id).getD (gen i)) 0 v.scores ++
        (insertedRows gen egen sid (i + 1) rest).2).map evalRowVal = _
    rw [hsplit, List.map_append, List.map_append, evalRowsOfScores_map_val,
      ih (i + 1)]

/-- The vendor rows inserted for a submitted vendor list store the
submitted overall scores verbatim. -/
theorem insertedRows_map_overall (gen : Nat → String)
    (egen : Nat → Nat → Nat → String) (sid : String) :
    ∀ (i : Nat) (vs : List VendorInput),
      ((insertedRows gen egen sid i vs).1).map VendorRow.overallScore =
        vs.map VendorInput.overallScore := by
  intro i vs
  induction vs generalizing i with
  | nil => rfl
  | cons v rest ih => simp [insertedRows, vendorRowOfInput, ih]

/-- Copying the evaluation rows of a vendor preserves their values. -/
theorem copyEvalsAux_map_val (egen2 : Nat → String) (nid : String) :
    ∀ (j : Nat) (l : List EvaluationRow),
      (copyEvalsAux egen2 nid j l).map dupEvalVal = l.map dupEvalVal := by
  intro j l
  induction l generalizing j with
  | nil => rfl
  | cons e rest ih => simp [copyEvalsAux, dupEvalVal, ih]

/-- Duplicated vendor rows preserve the original vendor values. -/
theorem dupRows_map_vendorVal (evals : List EvaluationRow) (gen : Nat → String)
    (egen : Nat → Nat → String) (nsid : String) :
    ∀ (i : Nat) (l : List VendorRow),
      ((dupRows evals gen egen nsid i l).1).map vendorVal =
        l.map vendorVal := by
  intro i l
  induction l generalizing i with
  | nil => rfl
  | cons v rest ih => simp [dupRows, vendorVal, ih]

/-- Duplicated evaluation rows preserve the original evaluation
values, vendor by vendor in order. -/
theorem dupRows_map_evalVal (evals : List EvaluationRow) (gen : Nat → String)
    (egen : Nat → Nat → String) (nsid : String) :
    ∀ (i : Nat) (l : List VendorRow),
      ((dupRows evals gen egen nsid i l).2).map dupEvalVal =
        (l.flatMap (fun v => evals.filter (fun e => e.vendorId == v.id))).map
          dupEvalVal := by
  intro i l
  induction l generalizing i with
  | nil => rfl
  | cons v rest ih =>
    have hsplit :
        (v :: rest).flatMap (fun w => evals.filter (fun e => e.vendorId == w.id)) =
          evals.filter (fun e => e.vendorId == v.id) ++
            rest.flatMap (fun w => evals.filter (fun e => e.vendorId == w.id)) := rfl
    show (copyEvalsAux (egen i) (gen (i + 1)) 0
          (evals.filter (fun e => e.vendorId == v.id)) ++
        (dupRows evals gen egen nsid (i + 1) rest).2).map dupEvalVal = _
    rw [hsplit, List.map_append, List.map_append, copyEvalsAux_map_val,
      ih (i + 1)]

/-- Every duplicated vendor row carries an identifier drawn from the
fresh supply at a positive index. -/
theorem dupRows_ids (evals : List EvaluationRow) (gen : Nat → String)
    (egen : Nat → Nat → String) (nsid : String) :
    ∀ (i : Nat) (l : List VendorRow) (v2 : VendorRow),
      v2 ∈ (dupRows evals gen egen nsid i l).1 → ∃ n, v2.id = gen (n + 1) := by
  intro i l
  induction l generalizing i with
  | nil => intro v2 h; simp [dupRows] at h
  | cons v rest ih =>
    intro v2 h
    simp only [dupRows, List.mem_cons] at h
    cases h with
    | inl h => exact ⟨i, by rw [h]⟩
    | inr h => exact ih (i + 1) v2 h

/-! ## Claim theorems -/

/-- C9: an audit-log write failure is caught and swallowed — logAudit
always returns normally, a failed write leaves the log unchanged, and
the primary operation that already committed keeps its state and
response whatever the audit write does. -/
theorem audit_failure_swallowed {σ ρ : Type} (op : σ → Except String (σ × ρ))
    (writeOk : Bool) (entry : AuditEntry) (st : σ) (log : List AuditEntry) :
    (∃ log2, logAudit writeOk log entry = .ok log2) ∧
    (logAudit false log entry = .ok log) ∧
    (∀ st2 r, op st = .ok (st2, r) →
      ∃ log2, runWithAudit op writeOk entry st log = .ok ((st2, log2), r)) := by
  refine ⟨?_, rfl, ?_⟩
  · cases writeOk <;> exact ⟨_, rfl⟩
  · intro st2 r h
    cases writeOk with
    | false => exact ⟨log, by simp [runWithAudit, h, logAudit]⟩
    | true => exact ⟨log ++ [entry], by simp [runWithAudit, h, logAudit]⟩

/-- Witness for C9 at a concrete primary operation and a failing
audit write. -/
theorem audit_failure_swallowed_witness :
    (∃ log2, logAudit false [] auditEntry1 = .ok log2) ∧
    (∃ log2,
      runWithAudit (fun n : Nat => Except.ok (n + 1, 7)) false auditEntry1 0 [] =
        .ok ((1, log2), 7)) :=
  ⟨(audit_failure_swallowed (fun n : Nat => Except.ok (n + 1, 7)) false
      auditEntry1 0 []).1,
    (audit_failure_swallowed (fun n : Nat => Except.ok (n + 1, 7)) false
      auditEntry1 0 []).2.2 1 7 rfl⟩

/-- C6: a failed login is indistinguishable between the unknown-code
case and the wrong-password case — both answer 401 with the identical
Invalid credentials message. -/
theorem login_no_enumeration (users : List UserRow)
    (check : String → String → Bool) (c1 p1 c2 p2 : String) (u : UserRow)
    (h1 : users.find? (fun x => x.empCode == c1) = none)
    (h2 : users.find? (fun x => x.empCode == c2) = some u)
    (h3 : check p2 u.passwordHash = false) :
    loginRoute users check c1 p1 = ⟨401, some "Invalid credentials"⟩ ∧
    loginRoute users check c2 p2 = ⟨401, some "Invalid credentials"⟩ ∧
    loginRoute users check c1 p1 = loginRoute users check c2 p2 := by
  have ha : loginRoute users check c1 p1 = ⟨401, some "Invalid credentials"⟩ := by
    simp [loginRoute, loginUser, h1]
  have hb : loginRoute users check c2 p2 = ⟨401, some "Invalid credentials"⟩ := by
    simp [loginRoute, loginUser, h2, h3]
  exact ⟨ha, hb, by rw [ha, hb]⟩

/-- Witness for C6: one stored account, one attempt with an unknown
code and one with a wrong password. -/
theorem login_no_enumeration_witness :
    loginRoute [owner1] (fun p h => p == "pw" && h == "ph") "ZZ" "x" =
      ⟨401, some "Invalid credentials"⟩ ∧
    loginRoute [owner1] (fun p h => p == "pw" && h == "ph") "E1" "bad" =
      ⟨401, some "Invalid credentials"⟩ ∧
    loginRoute [owner1] (fun p h => p == "pw" && h == "ph") "ZZ" "x" =
      loginRoute [owner1] (fun p h => p == "pw" && h == "ph") "E1" "bad" :=
  login_no_enumeration [owner1] (fun p h => p == "pw" && h == "ph")
    "ZZ" "x" "E1" "bad" owner1 (by decide) (by decide) (by decide)

/-- C5: every successful sheet update — whatever subset of fields the
patch carries — bumps the stored version by exactly one and stamps the
update time, so the timestamp advances whenever the clock does. -/
theorem update_increments_version (db : Db) (gen : Nat → String)
    (egen : Nat → Nat → Nat → String) (now : Nat) (userId role sheetId : String)
    (input : UpdateInput) (s : SheetRow)
    (hfind : db.sheets.find? (fun x => x.id == sheetId) = some s)
    (hacc : hasAccess db sheetId userId true = true ∨ role = "admin") :
    ((updateSheetRoute db gen egen now userId role sheetId input).1).status = 200 ∧
    ∃ s2,
      ((updateSheetRoute db gen egen now userId role sheetId input).2).sheets.find?
          (fun x => x.id == sheetId) = some s2 ∧
        s2.version = s.version + 1 ∧ s2.updatedAt = now ∧
        (s.updatedAt < now → s.updatedAt < s2.updatedAt) := by
  have hguard : (!hasAccess db sheetId userId true && role != "admin") = false := by
    cases hacc with
    | inl h => rw [h]; rfl
    | inr h => rw [h]; simp
  cases hv : input.vendors with
  | none =>
    refine ⟨(by simp [updateSheetRoute, hguard, hfind, hv]),
      { s with
        name := input.name.getD s.name,
        status := input.status.getD s.status,
        notes := input.notes.getD s.notes,
        version := s.version + 1,
        updatedAt := now },
      ?_, rfl, rfl, fun h => h⟩
    simp only [updateSheetRoute, hguard, hfind, hv, Bool.false_eq_true,
      if_false]
    exact find?_map_update (fun x : SheetRow => x.id == sheetId)
      (fun x =>
        { x with
          name := input.name.getD x.name,
          status := input.status.getD x.status,
          notes := input.notes.getD x.notes,
          version := x.version + 1,
          updatedAt := now })
      (fun x => rfl) db.sheets s hfind
  | some vs =>
    refine ⟨(by simp [updateSheetRoute, hguard, hfind, hv]),
      { s with
        name := input.name.getD s.name,
        status := input.status.getD s.status,
        notes := input.notes.getD s.notes,
        version := s.version + 1,
        updatedAt := now },
      ?_, rfl, rfl, fun h => h⟩
    simp only [updateSheetRoute, hguard, hfind, hv, Bool.false_eq_true,
      if_false]
    exact find?_map_update (fun x : SheetRow => x.id == sheetId)
      (fun x =>
        { x with
          name := input.name.getD x.name,
          status := input.status.getD x.status,
          notes := input.notes.getD x.notes,
          version := x.version + 1,
          updatedAt := now })
      (fun x => rfl) db.sheets s hfind

/-- Witness for C5: the owner sends an empty patch and the version
still moves from 1 to 2 with a fresh timestamp. -/
theorem update_increments_version_witness :
    ((updateSheetRoute dbBase (fun _ => "g") (fun _ _ _ => "e") 1 "u1" "user"
        "s1" inputEmpty).1).status = 200 ∧
    ∃ s2,
      ((updateSheetRoute dbBase (fun _ => "g") (fun _ _ _ => "e") 1 "u1" "user"
          "s1" inputEmpty).2).sheets.find? (fun x => x.id == "s1") = some s2 ∧
        s2.version = sheet1.version + 1 ∧ s2.updatedAt = 1 ∧
        (sheet1.updatedAt < 1 → sheet1.updatedAt < s2.updatedAt) :=
  update_increments_version dbBase (fun _ => "g") (fun _ _ _ => "e") 1 "u1"
    "user" "s1" inputEmpty sheet1 (by decide) (Or.inl (by decide))

/-- C10: for a sheet id that does not exist, hasAccess answers false,
so a non-admin caller of the single-sheet read, update and duplicate
handlers gets 403 Access denied — the access check runs before the
existence check — while an admin caller reaches the existence check
and gets 404. -/
theorem missing_sheet_access_denied (db : Db) (gen : Nat → String)
    (egen : Nat → Nat → Nat → String) (egen2 : Nat → Nat → String) (now : Nat)
    (userId role sheetId : String) (input : UpdateInput)
    (hnone : db.sheets.find? (fun x => x.id == sheetId) = none) :
    (∀ req : Bool, hasAccess db sheetId userId req = false) ∧
    (role ≠ "admin" →
      getSheetRoute db userId role sheetId = ⟨403, some "Access denied"⟩ ∧
      (updateSheetRoute db gen egen now userId role sheetId input).1 =
        ⟨403, some "Access denied"⟩ ∧
      (duplicateSheetRoute db gen egen2 now userId role sheetId).1 =
        ⟨403, some "Access denied"⟩) ∧
    (getSheetRoute db userId "admin" sheetId = ⟨404, some "DA Sheet not found"⟩ ∧
      (updateSheetRoute db gen egen now userId "admin" sheetId input).1 =
        ⟨404, some "DA Sheet not found"⟩ ∧
      (duplicateSheetRoute db gen egen2 now userId "admin" sheetId).1 =
        ⟨404, some "DA Sheet not found"⟩) := by
  have hacc : ∀ req : Bool, hasAccess db sheetId userId req = false := by
    intro req
    simp [hasAccess, hnone]
  refine ⟨hacc, fun hne => ?_, ?_⟩
  · have hrole : (role == "admin") = false := beq_eq_false_iff_ne.mpr hne
    exact ⟨by simp [getSheetRoute, hacc, hrole, hne],
      by simp [updateSheetRoute, hacc, hrole, hne],
      by simp [duplicateSheetRoute, hacc, hrole, hne]⟩
  · exact ⟨by simp [getSheetRoute, hacc, hnone],
      by simp [updateSheetRoute, hacc, hnone],
      by simp [duplicateSheetRoute, hacc, hnone]⟩

/-- Witness for C10 on a store whose only sheet is s1: reading the
unknown id nope as a non-admin is denied, as an admin it is 404. -/
theorem missing_sheet_access_denied_witness :
    hasAccess dbBase "nope" "u1" false = false ∧
    getSheetRoute dbBase "u1" "user" "nope" = ⟨403, some "Access denied"⟩ ∧
    getSheetRoute dbBase "u1" "admin" "nope" = ⟨404, some "DA Sheet not found"⟩ := by
  have h := missing_sheet_access_denied dbBase (fun _ => "g") (fun _ _ _ => "e")
    (fun _ _ => "d") 1 "u1" "user" "nope" inputEmpty (by decide)
  exact ⟨h.1 false, (h.2.1 (by decide)).1, h.2.2.1⟩

/-- C2 counterexample: publishing a draft template whose parameter
weightages total 95 answers 200 and deploys it — the server publish
endpoint never checks the total and never answers 409. -/
theorem publish_ignores_total_counterexample : ¬ publishRejectsBadTotalClaimed := by
  intro h
  have h95 := h [tmpl95] "t1" tmpl95 (by decide) (by decide) (by decide)
  exact absurd h95.1 (by decide)

/-- C2 amended: the publish endpoint always succeeds on an existing
template and just flips the deployed flag — whatever the total
weightage — so unpublish also always succeeds; the total-must-be-100
rule exists only in the client editor, which refuses to send the
request. -/
theorem publish_toggles_unconditionally (ts : List Template) (id : String)
    (t : Template) (hfind : ts.find? (fun x => x.id == id) = some t) :
    (publishRoute ts id).1 = ⟨200, none⟩ ∧
    (∃ t2, ((publishRoute ts id).2).find? (fun x => x.id == id) = some t2 ∧
      t2.isDeployed = !t.isDeployed) ∧
    (getTotalWeightage t.categories ≠ 100 → handlePublish t = none) := by
  refine ⟨by simp [publishRoute, hfind], ?_, ?_⟩
  · refine ⟨{ t with isDeployed := !t.isDeployed }, ?_, rfl⟩
    simp only [publishRoute, hfind]
    exact find?_map_update (fun x : Template => x.id == id)
      (fun x => { x with isDeployed := !t.isDeployed }) (fun x => rfl) ts t hfind
  · intro hne
    simp [handlePublish, hne]

/-- Witness for C2 amended at the weightage-95 draft template. -/
theorem publish_toggles_unconditionally_witness :
    (publishRoute [tmpl95] "t1").1 = ⟨200, none⟩ ∧
    (∃ t2, ((publishRoute [tmpl95] "t1").2).find? (fun x => x.id == "t1") =
        some t2 ∧ t2.isDeployed = !tmpl95.isDeployed) ∧
    (getTotalWeightage tmpl95.categories ≠ 100 → handlePublish tmpl95 = none) :=
  publish_toggles_unconditionally [tmpl95] "t1" tmpl95 (by decide)

/-- C8 counterexample: creating a sheet from an existing but
undeployed template succeeds with 201 — the create handler checks only
that the template exists. -/
theorem create_accepts_draft_template_counterexample :
    ¬ createRequiresDeployedClaimed := by
  intro h
  exact h dbDraftTmpl "s1" (fun _ => "g") (fun _ _ _ => "e") 0 "u1" inputCreate
    tmpl95 (by decide) (by decide) (by decide)

/-- C8 amended: sheet creation fails only when the referenced template
does not exist; an existing template is accepted regardless of its
deployed flag, and the created sheet starts as Draft at version 1.
Only the client sheet editor restricts the selection list to deployed
templates. -/
theorem create_checks_existence_only (db : Db) (sheetId : String)
    (gen : Nat → String) (egen : Nat → Nat → Nat → String) (now : Nat)
    (userId : String) (input : CreateInput) (t : Template)
    (hfind : db.templates.find? (fun x => x.id == input.templateId) = some t) :
    (createSheetRoute db sheetId gen egen now userId input).1 = ⟨201, none⟩ ∧
    (∃ ns, ((createSheetRoute db sheetId gen egen now userId input).2).sheets =
        db.sheets ++ [ns] ∧ ns.status = "Draft" ∧ ns.version = 1 ∧
        ns.templateId = input.templateId ∧ ns.createdBy = userId) ∧
    (t.isDeployed = false → t ∉ publishedTemplates db.templates) := by
  refine ⟨by simp [createSheetRoute, hfind], ?_, ?_⟩
  · refine ⟨{
      id := sheetId,
      name := input.name,
      ty := input.ty,
      status := "Draft",
      templateId := input.templateId,
      notes := input.notes,
      version := 1,
      createdBy := userId,
      approvedBy := none,
      approvedAt := none,
      updatedAt := now }, ?_, rfl, rfl, rfl, rfl⟩
    simp [createSheetRoute, hfind]
  · intro hdep hmem
    simp [publishedTemplates, List.mem_filter, hdep] at hmem

/-- Witness for C8 amended: the draft weightage-95 template still
yields a 201 sheet creation. -/
theorem create_checks_existence_only_witness :
    (createSheetRoute dbDraftTmpl "s1" (fun _ => "g") (fun _ _ _ => "e") 0 "u1"
        inputCreate).1 = ⟨201, none⟩ ∧
    (∃ ns, ((createSheetRoute dbDraftTmpl "s1" (fun _ => "g") (fun _ _ _ => "e")
          0 "u1" inputCreate).2).sheets = dbDraftTmpl.sheets ++ [ns] ∧
        ns.status = "Draft" ∧ ns.version = 1 ∧
        ns.templateId = inputCreate.templateId ∧ ns.createdBy = "u1") ∧
    (tmpl95.isDeployed = false → tmpl95 ∉ publishedTemplates dbDraftTmpl.templates) :=
  create_checks_existence_only dbDraftTmpl "s1" (fun _ => "g") (fun _ _ _ => "e")
    0 "u1" inputCreate tmpl95 (by decide)

/-- C1 counterexample: the owner updates a sheet with a vendor whose
single evaluation declares score 2 against a weightage-10 parameter
but claims result 999 — the stored row keeps 999, not 20, because the
update handler inserts the submitted result verbatim. -/
theorem update_trusts_client_result_counterexample :
    ¬ updateRecomputesResultClaimed := by
  intro h
  have hx := h dbBase (fun _ => "v0") (fun _ _ _ => "e") 7 "u1" "user" "s1"
    inputBad
    [{ id := none, name := "Acme",
       scores := [("c1", ⟨[⟨"p1", 2, 999, ""⟩], 999⟩)],
       overallScore := 999, notes := "" }]
    sheet1 tmplW10 (by decide) (by decide) (by decide) (by decide)
  have hmem : (⟨"e", "v0", "c1", "p1", 2, 999, ""⟩ : EvaluationRow) ∈
      sheetEvalRows
        ((updateSheetRoute dbBase (fun _ => "v0") (fun _ _ _ => "e") 7 "u1"
          "user" "s1" inputBad).2) "s1" := by decide
  exact absurd (hx _ hmem) (by decide)

/-- C1 amended: a successful vendor-supplying update replaces the
vendors wholesale and stores the submitted evaluation values —
parameter reference, score, result, comment — and submitted overall
scores verbatim; nothing is recomputed from the template. -/
theorem update_stores_submitted_values (db : Db) (gen : Nat → String)
    (egen : Nat → Nat → Nat → String) (now : Nat) (userId role sheetId : String)
    (input : UpdateInput) (vs : List VendorInput) (s : SheetRow)
    (hv : input.vendors = some vs)
    (hfind : db.sheets.find? (fun x => x.id == sheetId) = some s)
    (hacc : hasAccess db sheetId userId true = true ∨ role = "admin") :
    ((updateSheetRoute db gen egen now userId role sheetId input).1).status = 200 ∧
    ((updateSheetRoute db gen egen now userId role sheetId input).2).vendors =
      db.vendors.filter (fun v => !(v.daSheetId == sheetId)) ++
        (insertedRows gen egen sheetId 0 vs).1 ∧
    ((updateSheetRoute db gen egen now userId role sheetId input).2).evaluations =
      db.evaluations.filter (fun e =>
        !((db.vendors.filter (fun v => v.daSheetId == sheetId)).any
          (fun v => v.id == e.vendorId))) ++
        (insertedRows gen egen sheetId 0 vs).2 ∧
    ((insertedRows gen egen sheetId 0 vs).2).map evalRowVal =
      (flattenVendors vs).map evalInputVal ∧
    ((insertedRows gen egen sheetId 0 vs).1).map VendorRow.overallScore =
      vs.map VendorInput.overallScore := by
  have hguard : (!hasAccess db sheetId userId true && role != "admin") = false := by
    cases hacc with
    | inl h => rw [h]; rfl
    | inr h => rw [h]; simp
  exact ⟨by simp [updateSheetRoute, hguard, hfind, hv],
    by simp [updateSheetRoute, hguard, hfind, hv],
    by simp [updateSheetRoute, hguard, hfind, hv],
    insertedRows_map_evalVal gen egen sheetId 0 vs,
    insertedRows_map_overall gen egen sheetId 0 vs⟩

/-- Witness for C1 amended at the score-2-result-999 update. -/
theorem update_stores_submitted_values_witness :
    ((updateSheetRoute dbBase (fun _ => "v0") (fun _ _ _ => "e") 7 "u1" "user"
        "s1" inputBad).1).status = 200 ∧
    ((updateSheetRoute dbBase (fun _ => "v0") (fun _ _ _ => "e") 7 "u1" "user"
        "s1" inputBad).2).vendors =
      dbBase.vendors.filter (fun v => !(v.daSheetId == "s1")) ++
        (insertedRows (fun _ => "v0") (fun _ _ _ => "e") "s1" 0
          ((inputBad.vendors).getD [])).1 ∧
    ((updateSheetRoute dbBase (fun _ => "v0") (fun _ _ _ => "e") 7 "u1" "user"
        "s1" inputBad).2).evaluations =
      dbBase.evaluations.filter (fun e =>
        !((dbBase.vendors.filter (fun v => v.daSheetId == "s1")).any
          (fun v => v.id == e.vendorId))) ++
        (insertedRows (fun _ => "v0") (fun _ _ _ => "e") "s1" 0
          ((inputBad.vendors).getD [])).2 ∧
    ((insertedRows (fun _ => "v0") (fun _ _ _ => "e") "s1" 0
        ((inputBad.vendors).getD [])).2).map evalRowVal =
      (flattenVendors ((inputBad.vendors).getD [])).map evalInputVal ∧
    ((insertedRows (fun _ => "v0") (fun _ _ _ => "e") "s1" 0
        ((inputBad.vendors).getD [])).1).map VendorRow.overallScore =
      ((inputBad.vendors).getD []).map VendorInput.overallScore :=
  update_stores_submitted_values dbBase (fun _ => "v0") (fun _ _ _ => "e") 7
    "u1" "user" "s1" inputBad ((inputBad.vendors).getD []) sheet1 (by decide)
    (by decide) (Or.inl (by decide))

/-- C3: a caller who is neither the creator, nor an admin, nor
matched by email in the sheets shared_access rows is denied with 403
on every sheet read and write and the sheet is omitted from the
listing; and when a shared_access row for the callers email does
exist, view access is always granted while edit access requires the
rows level to equal edit. -/
theorem sheet_access_resolution (db : Db) (gen : Nat → String)
    (egen : Nat → Nat → Nat → String) (egen2 : Nat → Nat → String) (now : Nat)
    (s : SheetRow) (userId role : String) (u : UserRow) (input : UpdateInput)
    (email2 level2 : String)
    (hfind : db.sheets.find? (fun x => x.id == s.id) = some s)
    (hu : db.users.find? (fun x => x.id == userId) = some u)
    (hrole : role ≠ "admin")
    (hown : s.createdBy ≠ userId) :
    ((∀ sa ∈ db.sharedAccess, sa.daSheetId = s.id → sa.userEmail ≠ u.email) →
      (∀ u2 ∈ db.users, u2.id = userId → u2.email = u.email) →
      (∀ req : Bool, hasAccess db s.id userId req = false) ∧
      getSheetRoute db userId role s.id = ⟨403, some "Access denied"⟩ ∧
      (updateSheetRoute db gen egen now userId role s.id input).1 =
        ⟨403, some "Access denied"⟩ ∧
      (duplicateSheetRoute db gen egen2 now userId role s.id).1 =
        ⟨403, some "Access denied"⟩ ∧
      (deleteSheetRoute db userId role s.id).1 =
        ⟨403, some "Only the owner or admin can delete this sheet"⟩ ∧
      (shareSheetRoute db gen userId role s.id email2 level2).1 =
        ⟨403, some "Only the owner or admin can share this sheet"⟩ ∧
      (unshareSheetRoute db userId role s.id email2).1 =
        ⟨403, some "Only the owner or admin can manage sharing"⟩ ∧
      s ∉ listSheetsNonAdmin db userId) ∧
    (∀ a, db.sharedAccess.find?
        (fun x => x.daSheetId == s.id && x.userEmail == u.email) = some a →
      hasAccess db s.id userId false = true ∧
      hasAccess db s.id userId true = (a.accessLevel == "edit")) := by
  have hbown : (s.createdBy == userId) = false := beq_eq_false_iff_ne.mpr hown
  have hbrole : (role == "admin") = false := beq_eq_false_iff_ne.mpr hrole
  constructor
  · intro hns huniq
    have hsafind : db.sharedAccess.find?
        (fun a => a.daSheetId == s.id && a.userEmail == u.email) = none := by
      apply List.find?_eq_none.mpr
      intro a ha hcontra
      simp only [Bool.and_eq_true] at hcontra
      exact hns a ha (eq_of_beq hcontra.1) (eq_of_beq hcontra.2)
    have haccF : ∀ req : Bool, hasAccess db s.id userId req = false := by
      intro req
      simp [hasAccess, hfind, hbown, hu, hsafind]
    refine ⟨haccF, ?_, ?_, ?_, ?_, ?_, ?_, ?_⟩
    · simp [getSheetRoute, haccF, hbrole, hrole]
    · simp [updateSheetRoute, haccF, hbrole, hrole]
    · simp [duplicateSheetRoute, haccF, hbrole, hrole]
    · simp [deleteSheetRoute, hfind, hown, hrole]
    · simp [shareSheetRoute, hfind, hown, hrole]
    · simp [unshareSheetRoute, hfind, hown, hrole]
    · intro hmem
      rcases List.mem_filter.mp hmem with ⟨hmem2, hvis⟩
      rw [visibleToNonAdmin, hbown, Bool.false_or] at hvis
      rcases List.any_eq_true.mp hvis with ⟨sa, hsa, hsab⟩
      simp only [Bool.and_eq_true] at hsab
      have hsaparts := hsab
      rcases List.any_eq_true.mp hsaparts.2 with ⟨u2, hu2, hu2b⟩
      simp only [Bool.and_eq_true] at hu2b
      have hu2parts := hu2b
      have hemail : sa.userEmail = u.email := by
        rw [← eq_of_beq hu2parts.1]
        exact huniq u2 hu2 (eq_of_beq hu2parts.2)
      exact hns sa hsa (eq_of_beq hsaparts.1) hemail
  · intro a hafind
    constructor
    · simp [hasAccess, hfind, hbown, hu, hafind]
    · cases h2 : a.accessLevel == "edit" with
      | true => simp [hasAccess, hfind, hbown, hu, hafind, bne, h2]
      | false => simp [hasAccess, hfind, hbown, hu, hafind, bne, h2]

/-- Witness for C3: on one store the stranger is denied everywhere
and the sheet is invisible to them; on another, a view-level share
grants view but not edit. -/
theorem sheet_access_resolution_witness :
    getSheetRoute dbDeny "u2" "user" "s9" = ⟨403, some "Access denied"⟩ ∧
    (updateSheetRoute dbDeny (fun _ => "g") (fun _ _ _ => "e") 1 "u2" "user"
        "s9" inputEmpty).1 = ⟨403, some "Access denied"⟩ ∧
    (deleteSheetRoute dbDeny "u2" "user" "s9").1 =
      ⟨403, some "Only the owner or admin can delete this sheet"⟩ ∧
    sheet9 ∉ listSheetsNonAdmin dbDeny "u2" ∧
    hasAccess dbGrant "s9" "u2" false = true ∧
    hasAccess dbGrant "s9" "u2" true = false := by
  have hd := sheet_access_resolution dbDeny (fun _ => "g") (fun _ _ _ => "e")
    (fun _ _ => "d") 1 sheet9 "u2" "user" stranger inputEmpty "z@x" "view"
    (by decide) (by decide) (by decide) (by decide)
  have hdc := hd.1 (by decide) (by decide)
  have hg := sheet_access_resolution dbGrant (fun _ => "g") (fun _ _ _ => "e")
    (fun _ _ => "d") 1 sheet9 "u2" "user" stranger inputEmpty "z@x" "view"
    (by decide) (by decide) (by decide) (by decide)
  have hgc := hg.2 ⟨"sa1", "s9", "b@x", "view"⟩ (by decide)
  exact ⟨hdc.2.1, hdc.2.2.1, hdc.2.2.2.2.1, hdc.2.2.2.2.2.2.2,
    hgc.1, hgc.2.trans (by decide)⟩

/-- C7: duplicating any existing sheet — whatever its version and
status, Approved included — yields a new sheet at version 1, status
Draft, with the approval columns cleared, and vendor and evaluation
structures of equal length and equal values under identifiers drawn
from the fresh supply. -/
theorem duplicate_resets_and_copies (db : Db) (gen : Nat → String)
    (egen : Nat → Nat → String) (now : Nat) (userId role sheetId : String)
    (original : SheetRow)
    (hfind : db.sheets.find? (fun x => x.id == sheetId) = some original)
    (hacc : hasAccess db sheetId userId false = true ∨ role = "admin") :
    (duplicateSheetRoute db gen egen now userId role sheetId).1 = ⟨201, none⟩ ∧
    (∃ ns, ((duplicateSheetRoute db gen egen now userId role sheetId).2).sheets =
        db.sheets ++ [ns] ∧ ns.status = "Draft" ∧ ns.version = 1 ∧
        ns.approvedBy = none ∧ ns.approvedAt = none ∧
        ns.templateId = original.templateId ∧
        ns.name = original.name ++ " (Copy)" ∧ ns.createdBy = userId) ∧
    ((duplicateSheetRoute db gen egen now userId role sheetId).2).vendors =
      db.vendors ++ (dupRows db.evaluations gen egen (gen 0) 0
        (db.vendors.filter (fun v => v.daSheetId == sheetId))).1 ∧
    ((duplicateSheetRoute db gen egen now userId role sheetId).2).evaluations =
      db.evaluations ++ (dupRows db.evaluations gen egen (gen 0) 0
        (db.vendors.filter (fun v => v.daSheetId == sheetId))).2 ∧
    ((dupRows db.evaluations gen egen (gen 0) 0
        (db.vendors.filter (fun v => v.daSheetId == sheetId))).1).map vendorVal =
      (db.vendors.filter (fun v => v.daSheetId == sheetId)).map vendorVal ∧
    ((dupRows db.evaluations gen egen (gen 0) 0
        (db.vendors.filter (fun v => v.daSheetId == sheetId))).2).map dupEvalVal =
      ((db.vendors.filter (fun v => v.daSheetId == sheetId)).flatMap
        (fun v => db.evaluations.filter (fun e => e.vendorId == v.id))).map
        dupEvalVal ∧
    ((∀ n : Nat, ∀ v ∈ db.vendors, v.id ≠ gen n) →
      ∀ v2 ∈ (dupRows db.evaluations gen egen (gen 0) 0
          (db.vendors.filter (fun v => v.daSheetId == sheetId))).1,
        ∀ v ∈ db.vendors, v2.id ≠ v.id) := by
  have hguard : (!hasAccess db sheetId userId false && role != "admin") = false := by
    cases hacc with
    | inl h => rw [h]; rfl
    | inr h => rw [h]; simp
  refine ⟨by simp [duplicateSheetRoute, hguard, hfind],
    ⟨{ id := gen 0, name := original.name ++ " (Copy)", ty := original.ty,
       status := "Draft", templateId := original.templateId,
       notes := original.notes, version := 1, createdBy := userId,
       approvedBy := none, approvedAt := none, updatedAt := now },
      by simp [duplicateSheetRoute, hguard, hfind], rfl, rfl, rfl, rfl, rfl,
      rfl, rfl⟩,
    by simp [duplicateSheetRoute, hguard, hfind],
    by simp [duplicateSheetRoute, hguard, hfind],
    dupRows_map_vendorVal db.evaluations gen egen (gen 0) 0
      (db.vendors.filter (fun v => v.daSheetId == sheetId)),
    dupRows_map_evalVal db.evaluations gen egen (gen 0) 0
      (db.vendors.filter (fun v => v.daSheetId == sheetId)),
    ?_⟩
  intro hfresh v2 hv2 v hvmem heq
  rcases dupRows_ids db.evaluations gen egen (gen 0) 0
    (db.vendors.filter (fun w => w.daSheetId == sheetId)) v2 hv2 with ⟨n, hid⟩
  exact hfresh (n + 1) v hvmem (heq ▸ hid)

/-- Witness for C7: an Approved sheet at version 5 with one vendor
and one evaluation duplicates into a Draft version-1 sheet whose
vendor and evaluation values match the originals. -/
theorem duplicate_resets_and_copies_witness :
    (duplicateSheetRoute dbDup (fun n => String.append "n" (toString n))
        (fun _ _ => "ne") 9 "u1" "user" "s1").1 = ⟨201, none⟩ ∧
    (∃ ns, ((duplicateSheetRoute dbDup (fun n => String.append "n" (toString n))
          (fun _ _ => "ne") 9 "u1" "user" "s1").2).sheets =
        dbDup.sheets ++ [ns] ∧ ns.status = "Draft" ∧ ns.version = 1 ∧
        ns.approvedBy = none ∧ ns.approvedAt = none ∧
        ns.templateId = sheetApproved.templateId ∧
        ns.name = sheetApproved.name ++ " (Copy)" ∧ ns.createdBy = "u1") ∧
    ((dupRows dbDup.evaluations (fun n => String.append "n" (toString n))
        (fun _ _ => "ne") ((fun n => String.append "n" (toString n)) 0) 0
        (dbDup.vendors.filter (fun v => v.daSheetId == "s1"))).1).map vendorVal =
      (dbDup.vendors.filter (fun v => v.daSheetId == "s1")).map vendorVal := by
  have h := duplicate_resets_and_copies dbDup
    (fun n => String.append "n" (toString n)) (fun _ _ => "ne") 9 "u1" "user"
    "s1" sheetApproved (by decide) (Or.inl (by decide))
  exact ⟨h.1, h.2.1, h.2.2.2.2.1⟩

/-- C4: refresh-token rotation is single-use — when a redemption
succeeds, the whole revoke-and-reinsert runs as one state transition,
and redeeming the same raw token against the resulting state fails,
provided at most one stored hash matches the raw token and the
freshly stored hash does not (the bcrypt collision-freedom
assumptions). -/
theorem refresh_rotation_single_use (cfg : AuthConfig) (st : AuthState)
    (raw uid : String) (st2 : AuthState) (tk : AuthTokens)
    (hverify : cfg.verify raw = some uid)
    (hok : refreshAccessToken cfg st raw = .ok (st2, tk))
    (hone : (st.tokens.filter (fun t => cfg.hashMatch raw t.tokenHash)).length ≤ 1)
    (hnew : cfg.hashMatch raw (cfg.hashFn (cfg.generateRefresh uid)) = false) :
    refreshAccessToken cfg st2 raw = .error "Refresh token not found or revoked" := by
  unfold refreshAccessToken at hok ⊢
  rw [hverify] at hok ⊢
  dsimp only at hok ⊢
  cases hm : (st.tokens.filter
      (fun t => t.userId == uid && !t.revoked && decide (st.now < t.expiresAt))).find?
      (fun t => cfg.hashMatch raw t.tokenHash) with
  | none => rw [hm] at hok; exact absurd hok (by simp)
  | some matched =>
    rw [hm] at hok
    cases hu : st.users.find? (fun u => u.id == uid) with
    | none => rw [hu] at hok; exact absurd hok (by simp)
    | some user =>
      rw [hu] at hok
      simp only [Except.ok.injEq, Prod.mk.injEq] at hok
      have hst2 := hok.1
      have hmatchP : cfg.hashMatch raw matched.tokenHash = true := by
        simpa using List.find?_some hm
      have hmem1 : matched ∈ st.tokens :=
        (List.mem_filter.mp (List.mem_of_find?_eq_some hm)).1
      have huid : user.id = uid := eq_of_beq (by simpa using List.find?_some hu)
      have hkey : ∀ t ∈ (st.tokens.map (fun t : TokenRecord =>
            if t.id == matched.id then { t with revoked := true } else t) ++
            [({ id := cfg.freshId 0, userId := user.id,
                tokenHash := cfg.hashFn (cfg.generateRefresh user.id),
                revoked := false,
                expiresAt := st.now + refreshLifetimeMs } : TokenRecord)]).filter
            (fun t : TokenRecord =>
              t.userId == uid && !t.revoked && decide (st.now < t.expiresAt)),
          ¬ (cfg.hashMatch raw t.tokenHash = true) := by
        intro t ht hmatch
        rcases List.mem_filter.mp ht with ⟨htmem, htp⟩
        simp only [Bool.and_eq_true] at htp
        rcases List.mem_append.mp htmem with hta | htb
        · rcases List.mem_map.mp hta with ⟨t0, ht0mem, ht0eq⟩
          have hhash : t.tokenHash = t0.tokenHash := by
            rw [← ht0eq]
            cases h : t0.id == matched.id <;> simp [h]
          have ht0match : cfg.hashMatch raw t0.tokenHash = true := by
            rw [← hhash]; exact hmatch
          have ht0f : t0 ∈ st.tokens.filter
              (fun x => cfg.hashMatch raw x.tokenHash) :=
            List.mem_filter.mpr ⟨ht0mem, ht0match⟩
          have hmf : matched ∈ st.tokens.filter
              (fun x => cfg.hashMatch raw x.tokenHash) :=
            List.mem_filter.mpr ⟨hmem1, hmatchP⟩
          have heq0 : t0 = matched := mem_eq_of_length_le_one hone t0 ht0f matched hmf
          have hrevoked : t.revoked = true := by
            rw [← ht0eq, heq0]
            simp
          rw [hrevoked] at htp
          simp at htp
        · rw [List.mem_singleton] at htb
          rw [htb] at hmatch
          rw [huid] at hmatch
          rw [hnew] at hmatch
          exact Bool.noConfusion hmatch
      rw [← hst2]
      rw [List.find?_eq_none.mpr hkey]

/-- Witness for C4: a concrete redemption succeeds once and the
second redemption of the same raw token is rejected. -/
theorem refresh_rotation_single_use_witness :
    refreshAccessToken cfgW stW "raw1" = .ok (stW2, ⟨"acc1", "new-u1"⟩) ∧
    refreshAccessToken cfgW stW2 "raw1" =
      .error "Refresh token not found or revoked" := by
  have hfirst : refreshAccessToken cfgW stW "raw1" =
      .ok (stW2, ⟨"acc1", "new-u1"⟩) := by rfl
  exact ⟨hfirst,
    refresh_rotation_single_use cfgW stW "raw1" "u1" stW2 ⟨"acc1", "new-u1"⟩
      (by rfl) hfirst (by decide) (by decide)⟩

end ProtoSheet
